import Mathlib

/-!
Shallow embedding of the farm-monitoring Flask service in `minimal_app.py`.

Real-valued columns (`timestamp`, `value`, SQL `AVG`) are embedded as `ℚ`.
Database tables are lists of rows, in insertion (rowid) order.  Each HTTP
handler becomes a pure function from the database state and the request body
to a status code, an optional JSON message, and the new database state; an
unhandled Python exception (Flask's HTML 500 page) is embedded as status 500
with no JSON message.

The generic `Measurement` table written by `add_measurement` is kept separate
from the `milk_measurement` and `weight_measurement` tables, exactly as in
the source: only `populate_db` (out of scope here, it ingests parquet files)
writes the latter two, and all averages and latest values read only them.

`generate_report` computes `start_date = date - 30 days` in the source but
never uses it in any query; the dead binding is omitted from the embedding,
so the report depends on the date argument only through `strftime`.
-/

namespace Farm

/-- A row of the `cow` table: id (primary key), name, birthdate string. -/
structure Cow where
  id : String
  name : String
  birthdate : String
  deriving Repr, DecidableEq

/-- A row of the `sensor` table: id (primary key) and unit string. -/
structure Sensor where
  id : String
  unit : String
  deriving Repr, DecidableEq

/-- A measurement row: the `measurement`, `milk_measurement` and
`weight_measurement` tables all have these columns. -/
structure Measurement where
  sensor_id : String
  cow_id : String
  timestamp : ℚ
  value : ℚ
  deriving Repr, DecidableEq

/-- The database state: one list per table, in insertion order. -/
structure DB where
  cows : List Cow
  sensors : List Sensor
  measurements : List Measurement
  milk : List Measurement
  weight : List Measurement
  deriving Repr, DecidableEq

/-- Left-pad a natural number with zeros to width `k`, as `strftime` does. -/
def padZeros (k : ℕ) (n : ℕ) : String :=
  let s := toString n
  String.mk (List.replicate (k - s.length) '0') ++ s

/-- A calendar date as parsed by `datetime.strptime(date_str, "%Y-%m-%d")`. -/
structure ReportDate where
  year : ℕ
  month : ℕ
  day : ℕ
  deriving Repr, DecidableEq

/-- Embeds `date.strftime("%Y-%m-%d")`. -/
def fmtDate (d : ReportDate) : String :=
  padZeros 4 d.year ++ "-" ++ padZeros 2 d.month ++ "-" ++ padZeros 2 d.day

/-- Semantics of SQL `AVG(value)` over the rows that pass a filter:
`NULL` when no row matches, otherwise the sum divided by the row count. -/
def sqlAvg (vs : List ℚ) : Option ℚ :=
  if vs.isEmpty then none else some (vs.sum / (vs.length : ℚ))

/-- One step of scanning for the row with the maximum timestamp. -/
def maxTsStep (acc x : Measurement) : Measurement :=
  if acc.timestamp < x.timestamp then x else acc

/-- Semantics of `.order_by(timestamp.desc()).first()` over filtered rows:
none on an empty result, otherwise a row with maximal timestamp (the
earliest-inserted one among ties, one deterministic choice for the order
SQLite leaves unspecified). -/
def latestBy : List Measurement → Option Measurement
  | [] => none
  | m :: ms => some (ms.foldl maxTsStep m)

/-- The JSON object `{"value": .., "timestamp": .., "sensor_id": ..}`
built for `latest_milk` / `latest_weight`. -/
structure LatestInfo where
  value : ℚ
  timestamp : ℚ
  sensor_id : String
  deriving Repr, DecidableEq

/-- Project a measurement row to the latest-measurement JSON object. -/
def toLatest (m : Measurement) : LatestInfo :=
  { value := m.value, timestamp := m.timestamp, sensor_id := m.sensor_id }

/-- One per-cow entry of the report, and likewise the body of
`GET /cows/{id}`: identity fields plus averages and latest values. -/
structure CowSummary where
  id : String
  name : String
  birthdate : String
  avg_milk_production : Option ℚ
  avg_weight : Option ℚ
  latest_milk : Option LatestInfo
  latest_weight : Option LatestInfo
  deriving Repr, DecidableEq

/-- Milk rows of one cow with value > 0: the filter used by
`generate_report` for both the average and the latest milk queries. -/
def milkPosOf (db : DB) (cowId : String) : List Measurement :=
  db.milk.filter (fun m => m.cow_id == cowId && decide (0 < m.value))

/-- Weight rows of one cow with value > 0, as filtered by `generate_report`. -/
def weightPosOf (db : DB) (cowId : String) : List Measurement :=
  db.weight.filter (fun m => m.cow_id == cowId && decide (0 < m.value))

/-- The per-cow dictionary built in the loop body of `generate_report`. -/
def reportCow (db : DB) (cow : Cow) : CowSummary :=
  { id := cow.id
    name := cow.name
    birthdate := cow.birthdate
    avg_milk_production := sqlAvg ((milkPosOf db cow.id).map Measurement.value)
    avg_weight := sqlAvg ((weightPosOf db cow.id).map Measurement.value)
    latest_milk := (latestBy (milkPosOf db cow.id)).map toLatest
    latest_weight := (latestBy (weightPosOf db cow.id)).map toLatest }

/-- The dictionary returned by `generate_report`: the formatted date and one
summary per cow. -/
structure Report where
  date : String
  cows : List CowSummary
  deriving Repr, DecidableEq

/-- Embeds `generate_report(date)`. -/
def generateReport (db : DB) (date : ReportDate) : Report :=
  { date := fmtDate date, cows := db.cows.map (reportCow db) }

/-- A `potentially_ill_cows` entry: cow id, name and reason string. -/
structure Flag where
  id : String
  name : String
  reason : String
  deriving Repr, DecidableEq

/-- Python `f"{x:.2f}"`: the value rounded to two decimal places, printed
with a sign and exactly two fraction digits. -/
def fmt2 (q : ℚ) : String :=
  let n : ℤ := round (q * 100)
  let a := n.natAbs
  (if n < 0 then "-" else "") ++ toString (a / 100) ++ "." ++ padZeros 2 (a % 100)

/-- The reason string for a weight flag at percentage `pct`. -/
def weightReason (pct : ℚ) : String :=
  "Significant weight loss: " ++ fmt2 pct ++ "% change"

/-- The reason string for a milk flag at percentage `pct`. -/
def milkReason (pct : ℚ) : String :=
  "Significant milk production drop: " ++ fmt2 pct ++ "% change"

/-- The weight check of `detect_ill_cows` for one cow entry.  Python
truthiness: `cow["latest_weight"]` is truthy iff it is not `None` (it is a
non-empty dict), while `cow["avg_weight"]` — a float or `None` — is truthy
iff it is neither `None` nor `0.0`. -/
def weightFlagOf (c : CowSummary) : List Flag :=
  match c.latest_weight, c.avg_weight with
  | some lw, some aw =>
    if aw ≠ 0 ∧ 0 < lw.value then
      if (lw.value - aw) / aw * 100 < -5 then
        [{ id := c.id, name := c.name
           reason := weightReason ((lw.value - aw) / aw * 100) }]
      else []
    else []
  | _, _ => []

/-- The milk check of `detect_ill_cows` for one cow entry, with the same
truthiness conditions and a -20 threshold. -/
def milkFlagOf (c : CowSummary) : List Flag :=
  match c.latest_milk, c.avg_milk_production with
  | some lm, some am =>
    if am ≠ 0 ∧ 0 < lm.value then
      if (lm.value - am) / am * 100 < -20 then
        [{ id := c.id, name := c.name
           reason := milkReason ((lm.value - am) / am * 100) }]
      else []
    else []
  | _, _ => []

/-- The loop body of `detect_ill_cows` for one cow entry: the weight flag is
appended before the milk flag. -/
def cowFlags (c : CowSummary) : List Flag :=
  weightFlagOf c ++ milkFlagOf c

/-- Embeds `detect_ill_cows(report)`: the flags of every cow, in cow order. -/
def detectIllCows (r : Report) : List Flag :=
  r.cows.flatMap cowFlags

/-- Request body of `POST /measurements`. -/
structure MeasurementReq where
  sensor_id : String
  cow_id : String
  timestamp : ℚ
  value : ℚ
  deriving Repr, DecidableEq

/-- Handler `add_measurement` (`POST /measurements`): `MeasurementCreate` rejects a
negative value (caught `ValueError` → 400); otherwise the row is inserted
into the generic `measurement` table and 201 is returned.  No check on
`cow_id` or `sensor_id` is performed (SQLite does not enforce the foreign
keys here). -/
def addMeasurement (db : DB) (r : MeasurementReq) : ℕ × DB :=
  if r.value < 0 then (400, db)
  else (201, { db with measurements := db.measurements ++
    [{ sensor_id := r.sensor_id, cow_id := r.cow_id
       timestamp := r.timestamp, value := r.value }] })

/-- Handler `add_sensor` (`POST /sensors`): no validation; inserting a
duplicate sensor id raises an uncaught `IntegrityError` on commit (bare
500), otherwise the sensor is stored with 201. -/
def addSensor (db : DB) (s : Sensor) : ℕ × DB :=
  if db.sensors.any (fun t => t.id == s.id) then (500, db)
  else (201, { db with sensors := db.sensors ++ [s] })

/-- Request body of `POST /cows` (id inside the body). -/
structure CowReq where
  id : String
  name : String
  birthdate : String
  deriving Repr, DecidableEq

/-- Request body of `POST /cows/{id}` (id in the path). -/
structure CowBody where
  name : String
  birthdate : String
  deriving Repr, DecidableEq

/-- Handler `add_cow` (`POST /cows`): no validation of any field; the insert of a
duplicate primary key raises an uncaught `IntegrityError` on commit, which
Flask turns into a bare 500 with no JSON body. -/
def addCow (db : DB) (r : CowReq) : ℕ × Option String × DB :=
  if db.cows.any (fun c => c.id == r.id) then
    (500, none, db)
  else
    (201, some "Cow added successfully",
     { db with cows := db.cows ++ [{ id := r.id, name := r.name, birthdate := r.birthdate }] })

/-- Leap-year rule used by `datetime`. -/
def isLeapYear (y : ℕ) : Bool :=
  y % 4 == 0 && (y % 100 != 0 || y % 400 == 0)

/-- Days in a month, as validated by `datetime`. -/
def daysInMonth (y m : ℕ) : ℕ :=
  if m == 2 then (if isLeapYear y then 29 else 28)
  else if m == 4 || m == 6 || m == 9 || m == 11 then 30
  else 31

/-- Split a character list at every dash, keeping empty groups. -/
def splitDash : List Char → List (List Char)
  | [] => [[]]
  | c :: cs =>
    if c = '-' then [] :: splitDash cs
    else
      match splitDash cs with
      | [] => [[c]]
      | g :: gs => (c :: g) :: gs

/-- The numeric value of a digit group. -/
def digitsToNat (cs : List Char) : ℕ :=
  cs.foldl (fun n c => n * 10 + (c.toNat - 48)) 0

/-- The `%d` day group of `strptime`: one or two digits, or — one more form
its regex allows — a space followed by a single nonzero digit. -/
def parseDay : List Char → Option ℕ
  | [' ', c] => if c.isDigit && c != '0' then some (c.toNat - 48) else none
  | ds =>
    if !ds.isEmpty && ds.all Char.isDigit && decide (ds.length ≤ 2)
    then some (digitsToNat ds) else none

/-- Holds when `datetime.strptime(v, "%Y-%m-%d")` succeeds: a year group of
exactly four digits (the `%Y` regex is `\d\d\d\d`), a month group of one or
two digits, and a `%d` day group, separated by dashes and forming a valid
calendar date (year at least 1). -/
def validDate (s : String) : Bool :=
  match splitDash s.toList with
  | [ys, ms, ds] =>
    ys.all Char.isDigit && decide (ys.length = 4) &&
    !ms.isEmpty && ms.all Char.isDigit && decide (ms.length ≤ 2) &&
    (match parseDay ds with
     | none => false
     | some d =>
       let y := digitsToNat ys
       let m := digitsToNat ms
       decide (1 ≤ y) && decide (1 ≤ m) && decide (m ≤ 12) &&
       decide (1 ≤ d) && decide (d ≤ daysInMonth y m))
  | _ => false

/-- Handler `create_cow` (`POST /cows/{id}`): `CowCreate` validates the birthdate
first — its `ValueError` is NOT caught in this handler, so a bad date
escapes as a 500 with no JSON body; then a duplicate id yields 409, and
otherwise the cow is inserted with 201. -/
def createCow (db : DB) (id : String) (body : CowBody) : ℕ × Option String × DB :=
  if !validDate body.birthdate then
    (500, none, db)
  else if db.cows.any (fun c => c.id == id) then
    (409, some "Cow already exists", db)
  else
    (201, some "Cow created successfully",
     { db with cows := db.cows ++ [{ id := id, name := body.name, birthdate := body.birthdate }] })

/-- Response of `GET /cows`: a status, an optional message, and the listed
cows (each serialised as its id, name and birthdate — exactly the fields of
a `Cow` row). -/
structure GetCowsResp where
  status : ℕ
  message : Option String
  cows : Option (List Cow)
  deriving Repr, DecidableEq

/-- Handler `get_cows` (`GET /cows`): 404 with "No cows found" when the table is
empty, otherwise 200 with every stored cow. -/
def getCows (db : DB) : GetCowsResp :=
  if db.cows.isEmpty then { status := 404, message := some "No cows found", cows := none }
  else { status := 200, message := none, cows := some db.cows }

/-- Milk rows of one cow with NO filter on the value: the filter used by
`get_cow_details` for both its average and its latest milk queries. -/
def milkAllOf (db : DB) (cowId : String) : List Measurement :=
  db.milk.filter (fun m => m.cow_id == cowId)

/-- Weight rows of one cow with NO filter on the value, as in
`get_cow_details`. -/
def weightAllOf (db : DB) (cowId : String) : List Measurement :=
  db.weight.filter (fun m => m.cow_id == cowId)

/-- Response of `GET /cows/{id}`. -/
inductive CowDetailsResp where
  | notFound
  | ok (s : CowSummary)
  deriving Repr, DecidableEq

/-- Handler `get_cow_details` (`GET /cows/{id}`): 404 on an unknown id; otherwise
averages and latest values over ALL of the cow's milk/weight rows — unlike
`generate_report`, no `value > 0` filter appears in any of its queries. -/
def getCowDetails (db : DB) (id : String) : CowDetailsResp :=
  match db.cows.find? (fun c => c.id == id) with
  | none => .notFound
  | some cow =>
    .ok { id := cow.id
          name := cow.name
          birthdate := cow.birthdate
          avg_milk_production := sqlAvg ((milkAllOf db id).map Measurement.value)
          avg_weight := sqlAvg ((weightAllOf db id).map Measurement.value)
          latest_milk := (latestBy (milkAllOf db id)).map toLatest
          latest_weight := (latestBy (weightAllOf db id)).map toLatest }

/-- The percentage `(latest - average) / average * 100` for the weight kind,
read off a cow summary (0 when either field is absent). -/
def claimPctW (c : CowSummary) : ℚ :=
  match c.latest_weight, c.avg_weight with
  | some lw, some aw => (lw.value - aw) / aw * 100
  | _, _ => 0

/-- The weight-flag condition exactly as the specification words it: latest
weight and average weight EXIST, the latest value is positive, and the
percentage change is below -5. -/
def claimCondW (c : CowSummary) : Bool :=
  match c.latest_weight, c.avg_weight with
  | some lw, some aw => decide (0 < lw.value) && decide ((lw.value - aw) / aw * 100 < -5)
  | _, _ => false

/-- The percentage `(latest - average) / average * 100` for the milk kind,
read off a cow summary (0 when either field is absent). -/
def claimPctM (c : CowSummary) : ℚ :=
  match c.latest_milk, c.avg_milk_production with
  | some lm, some am => (lm.value - am) / am * 100
  | _, _ => 0

/-- The milk-flag condition exactly as the specification words it: latest
milk and average milk EXIST, the latest value is positive, and the
percentage change is below -20. -/
def claimCondM (c : CowSummary) : Bool :=
  match c.latest_milk, c.avg_milk_production with
  | some lm, some am => decide (0 < lm.value) && decide ((lm.value - am) / am * 100 < -20)
  | _, _ => false

/-! Concrete data used by witnesses and counterexamples. -/

/-- An empty database, as after `db.create_all()` on a fresh file. -/
def emptyDB : DB := ⟨[], [], [], [], []⟩

/-- A fixed report date for witnesses. -/
def d0 : ReportDate := ⟨2024, 1, 1⟩

/-- C1 scenario, step 1: `POST /cows` with the test suite's cow. -/
def c1_db1 : DB := (addCow emptyDB ⟨"test_cow", "Bessie", "2020-01-01"⟩).2.2

/-- C1 scenario, step 2: `POST /sensors` with a liters sensor. -/
def c1_db2 : DB := (addSensor c1_db1 ⟨"milk_sensor", "L"⟩).2

/-- C1 scenario, step 3: `POST /measurements` with a positive milk value. -/
def c1_step3 : ℕ × DB := addMeasurement c1_db2 ⟨"milk_sensor", "test_cow", 100, 10⟩

/-- The database after the C1 scenario. -/
def c1_db3 : DB := c1_step3.2

/-- A cow used by the C2 witness. -/
def c2_cow : Cow := ⟨"c2cow", "Bessie", "2020-01-01"⟩

/-- C2 witness database: one cow with one positive milk measurement. -/
def c2_db : DB := ⟨[c2_cow], [], [], [⟨"s", "c2cow", 1, 3⟩], []⟩

/-- C3 witness database: one cow whose latest weight (450) sits 10% below
its average weight (500), the worked example of the specification. -/
def c3_db : DB :=
  ⟨[⟨"c3cow", "Daisy", "2019-05-15"⟩], [], [], [],
   [⟨"w", "c3cow", 1, 550⟩, ⟨"w", "c3cow", 2, 450⟩]⟩

/-- C4 database: one cow whose only milk measurement has value 0, so the cow
has no positive-valued milk measurement at all. -/
def c4_db : DB := ⟨[⟨"c4cow", "N", "2020-01-01"⟩], [], [], [⟨"s", "c4cow", 5, 0⟩], []⟩

/-- C5 request: both referenced ids are absent from the empty database. -/
def c5_req : MeasurementReq := ⟨"ghost_sensor", "ghost_cow", 0, 1⟩

/-- C6 negative-valued request. -/
def c6_reqNeg : MeasurementReq := ⟨"s", "c", 0, -1⟩

/-- C6 non-negative request. -/
def c6_reqPos : MeasurementReq := ⟨"s", "c", 0, 2⟩

/-- C7 request body, the repository's own `test_invalid_cow_creation` input. -/
def c7_req : CowReq := ⟨"invalid_cow", "Invalid", "not-a-date"⟩

/-- C8 database: cow id "a" already exists. -/
def c8_db : DB := ⟨[⟨"a", "Bessie", "2020-01-01"⟩], [], [], [], []⟩

/-- C10 database with one cow. -/
def c10_db : DB := ⟨[⟨"x", "Moo", "2021-06-01"⟩], [], [], [], []⟩

/-! ## Theorems -/

/-- SQL `AVG` over an empty row set is `NULL`. -/
theorem sqlAvg_eq_none (vs : List ℚ) (h : vs = []) : sqlAvg vs = none := by
  subst h; rfl

/-- SQL `AVG` over a non-empty row set is the sum over the count. -/
theorem sqlAvg_of_ne_nil (vs : List ℚ) (h : vs ≠ []) :
    sqlAvg vs = some (vs.sum / (vs.length : ℚ)) := by
  unfold sqlAvg
  rw [if_neg (by simpa [List.isEmpty_iff] using h)]

/-- The average of positive values is positive. -/
theorem sqlAvg_pos (vs : List ℚ) (hpos : ∀ v ∈ vs, 0 < v) (a : ℚ)
    (h : sqlAvg vs = some a) : 0 < a := by
  unfold sqlAvg at h
  by_cases he : vs.isEmpty
  · simp [he] at h
  · rw [if_neg he] at h
    obtain rfl : vs.sum / (vs.length : ℚ) = a := by injection h
    have hne : vs ≠ [] := by simpa [List.isEmpty_iff] using he
    have hs : 0 < vs.sum := List.sum_pos vs hpos hne
    have hl : 0 < (vs.length : ℚ) := by exact_mod_cast List.length_pos.mpr hne
    exact div_pos hs hl

/-- The timestamp-maximum scan returns the start or a list element, and its
timestamp dominates the start and every list element. -/
theorem foldl_maxTs_spec (ms : List Measurement) (acc : Measurement) :
    (ms.foldl maxTsStep acc = acc ∨ ms.foldl maxTsStep acc ∈ ms) ∧
    acc.timestamp ≤ (ms.foldl maxTsStep acc).timestamp ∧
    ∀ x ∈ ms, x.timestamp ≤ (ms.foldl maxTsStep acc).timestamp := by
  induction ms generalizing acc with
  | nil => simp
  | cons y ys ih =>
    simp only [List.foldl_cons]
    obtain ⟨hmem, hacc, hall⟩ := ih (maxTsStep acc y)
    refine ⟨?_, ?_, ?_⟩
    · rcases hmem with h | h
      · rw [h]; unfold maxTsStep
        split
        · exact Or.inr (List.mem_cons_self _ _)
        · exact Or.inl rfl
      · exact Or.inr (List.mem_cons_of_mem _ h)
    · refine le_trans ?_ hacc
      unfold maxTsStep; split
      · exact le_of_lt (by assumption)
      · exact le_refl _
    · intro x hx
      rcases List.mem_cons.1 hx with rfl | hx2
      · refine le_trans ?_ hacc
        unfold maxTsStep; split
        · exact le_refl _
        · exact le_of_not_lt (by assumption)
      · exact hall x hx2

/-- The latest-row query is empty exactly on an empty row set. -/
theorem latestBy_eq_none_iff (l : List Measurement) : latestBy l = none ↔ l = [] := by
  cases l <;> simp [latestBy]

/-- A row returned by the latest-row query belongs to the row set and has
the maximal timestamp in it. -/
theorem latestBy_mem_max (l : List Measurement) (m : Measurement)
    (h : latestBy l = some m) : m ∈ l ∧ ∀ x ∈ l, x.timestamp ≤ m.timestamp := by
  cases l with
  | nil => simp [latestBy] at h
  | cons y ys =>
    obtain rfl : ys.foldl maxTsStep y = m := by simpa [latestBy] using h
    obtain ⟨hmem, hacc, hall⟩ := foldl_maxTs_spec ys y
    constructor
    · rcases hmem with h2 | h2
      · rw [h2]; exact List.mem_cons_self _ _
      · exact List.mem_cons_of_mem _ h2
    · intro x hx
      rcases List.mem_cons.1 hx with rfl | hx2
      · exact hacc
      · exact hall x hx2

/-- Every value drawn from a positivity-filtered row set is positive. -/
theorem pos_of_mem_posFilter (l : List Measurement) (cid : String) (v : ℚ)
    (h : v ∈ (l.filter (fun m => m.cow_id == cid && decide (0 < m.value))).map
      Measurement.value) : 0 < v := by
  obtain ⟨m, hm, rfl⟩ := List.mem_map.1 h
  have h1 := (List.mem_filter.1 hm).2
  simp only [Bool.and_eq_true, decide_eq_true_eq] at h1
  exact h1.2

/-- C2: in the generated report every cow's `avg_milk_production` (resp.
`avg_weight`) is the arithmetic mean of exactly the positive-valued milk
(resp. weight) measurements stored for that cow, and is none when no such
measurement exists. -/
theorem report_avgs_are_positive_means (db : DB) (d : ReportDate) (c : CowSummary)
    (hc : c ∈ (generateReport db d).cows) :
    (milkPosOf db c.id = [] → c.avg_milk_production = none) ∧
    (milkPosOf db c.id ≠ [] → c.avg_milk_production =
      some (((milkPosOf db c.id).map Measurement.value).sum / ((milkPosOf db c.id).length : ℚ))) ∧
    (weightPosOf db c.id = [] → c.avg_weight = none) ∧
    (weightPosOf db c.id ≠ [] → c.avg_weight =
      some (((weightPosOf db c.id).map Measurement.value).sum / ((weightPosOf db c.id).length : ℚ))) := by
  obtain ⟨cow, hcow, rfl⟩ := List.mem_map.1 hc
  have hid : (reportCow db cow).id = cow.id := rfl
  rw [hid]
  refine ⟨fun h => ?_, fun h => ?_, fun h => ?_, fun h => ?_⟩
  · show sqlAvg ((milkPosOf db cow.id).map Measurement.value) = none
    exact sqlAvg_eq_none _ (by simp [h])
  · show sqlAvg ((milkPosOf db cow.id).map Measurement.value) = _
    rw [sqlAvg_of_ne_nil _ (by simpa using h)]
    simp
  · show sqlAvg ((weightPosOf db cow.id).map Measurement.value) = none
    exact sqlAvg_eq_none _ (by simp [h])
  · show sqlAvg ((weightPosOf db cow.id).map Measurement.value) = _
    rw [sqlAvg_of_ne_nil _ (by simpa using h)]
    simp

/-- C2 witness: the report average theorem applied to a one-cow database
with one positive milk measurement. -/
theorem report_avgs_are_positive_means_witness :
    (milkPosOf c2_db (reportCow c2_db c2_cow).id = [] →
      (reportCow c2_db c2_cow).avg_milk_production = none) ∧
    (milkPosOf c2_db (reportCow c2_db c2_cow).id ≠ [] →
      (reportCow c2_db c2_cow).avg_milk_production =
        some (((milkPosOf c2_db (reportCow c2_db c2_cow).id).map Measurement.value).sum /
          ((milkPosOf c2_db (reportCow c2_db c2_cow).id).length : ℚ))) ∧
    (weightPosOf c2_db (reportCow c2_db c2_cow).id = [] →
      (reportCow c2_db c2_cow).avg_weight = none) ∧
    (weightPosOf c2_db (reportCow c2_db c2_cow).id ≠ [] →
      (reportCow c2_db c2_cow).avg_weight =
        some (((weightPosOf c2_db (reportCow c2_db c2_cow).id).map Measurement.value).sum /
          ((weightPosOf c2_db (reportCow c2_db c2_cow).id).length : ℚ))) :=
  report_avgs_are_positive_means c2_db d0 (reportCow c2_db c2_cow)
    (by simp [generateReport, c2_db])

/-- Pointwise equal functions give equal flat maps. -/
theorem flatMap_congr_mem {α β : Type _} {l : List α} {f g : α → List β}
    (h : ∀ a ∈ l, f a = g a) : l.flatMap f = l.flatMap g := by
  induction l with
  | nil => rfl
  | cons x xs ih =>
    simp only [List.flatMap_cons]
    rw [h x (List.mem_cons_self x xs), ih (fun a ha => h a (List.mem_cons_of_mem _ ha))]

/-- When the average weight can only be positive, the code's truthiness test
on it agrees with the specification's existence test. -/
theorem weightFlagOf_eq_claim (c : CowSummary)
    (hw : ∀ aw, c.avg_weight = some aw → 0 < aw) :
    weightFlagOf c =
      if claimCondW c then
        [{ id := c.id, name := c.name, reason := weightReason (claimPctW c) }]
      else [] := by
  unfold weightFlagOf claimCondW claimPctW
  rcases hlw : c.latest_weight with _ | lw <;> rcases haw : c.avg_weight with _ | aw <;>
    simp only [hlw, haw]
  · rfl
  · rfl
  · rfl
  · have haw0 : aw ≠ 0 := ne_of_gt (hw aw haw)
    by_cases h1 : 0 < lw.value <;>
      by_cases h2 : (lw.value - aw) / aw * 100 < -5 <;>
        simp [h1, h2, haw0]

/-- When the average milk can only be positive, the code's truthiness test
on it agrees with the specification's existence test. -/
theorem milkFlagOf_eq_claim (c : CowSummary)
    (hm : ∀ am, c.avg_milk_production = some am → 0 < am) :
    milkFlagOf c =
      if claimCondM c then
        [{ id := c.id, name := c.name, reason := milkReason (claimPctM c) }]
      else [] := by
  unfold milkFlagOf claimCondM claimPctM
  rcases hlm : c.latest_milk with _ | lm <;> rcases ham : c.avg_milk_production with _ | am <;>
    simp only [hlm, ham]
  · rfl
  · rfl
  · rfl
  · have ham0 : am ≠ 0 := ne_of_gt (hm am ham)
    by_cases h1 : 0 < lm.value <;>
      by_cases h2 : (lm.value - am) / am * 100 < -20 <;>
        simp [h1, h2, ham0]

/-- A report entry's average weight, when present, is positive. -/
theorem report_cow_avg_weight_pos (db : DB) (cow : Cow) :
    ∀ aw, (reportCow db cow).avg_weight = some aw → 0 < aw :=
  fun aw h => sqlAvg_pos _ (fun v hv => pos_of_mem_posFilter db.weight cow.id v hv) aw h

/-- A report entry's average milk, when present, is positive. -/
theorem report_cow_avg_milk_pos (db : DB) (cow : Cow) :
    ∀ am, (reportCow db cow).avg_milk_production = some am → 0 < am :=
  fun am h => sqlAvg_pos _ (fun v hv => pos_of_mem_posFilter db.milk cow.id v hv) am h

/-- C3: on the generated report, `detect_ill_cows` emits per cow exactly a
weight flag when latest weight and average weight exist, the latest value
is positive and the change is below -5%, followed by a milk flag when the
analogous milk condition holds with threshold -20%; each reason embeds the
signed two-decimal percentage, and a cow hence yields 0, 1 or 2 entries. -/
theorem detect_ill_matches_spec (db : DB) (d : ReportDate) :
    detectIllCows (generateReport db d) =
      (generateReport db d).cows.flatMap (fun c =>
        (if claimCondW c then
          [{ id := c.id, name := c.name, reason := weightReason (claimPctW c) }]
         else []) ++
        (if claimCondM c then
          [{ id := c.id, name := c.name, reason := milkReason (claimPctM c) }]
         else [])) := by
  unfold detectIllCows
  apply flatMap_congr_mem
  intro c hc
  obtain ⟨cow, _, rfl⟩ := List.mem_map.1 hc
  unfold cowFlags
  rw [weightFlagOf_eq_claim _ (report_cow_avg_weight_pos db cow),
    milkFlagOf_eq_claim _ (report_cow_avg_milk_pos db cow)]

/-- C4 counterexample: cow `c4cow` has no positive-valued milk measurement,
yet `GET /cows/{id}` reports an average of 0 and a latest milk measurement —
`get_cow_details` does not filter on `value > 0`. -/
theorem get_cow_details_counterexample :
    milkPosOf c4_db "c4cow" = [] ∧
    getCowDetails c4_db "c4cow" =
      .ok ⟨"c4cow", "N", "2020-01-01", some 0, none, some ⟨0, 5, "s"⟩, none⟩ := by
  refine ⟨by decide, ?_⟩
  simp [getCowDetails, c4_db, milkAllOf, weightAllOf, sqlAvg, latestBy, toLatest, maxTsStep]

/-- C4 amended: `GET /cows/{id}` returns the average over ALL stored
measurements of each kind (no positivity filter) and the latest as a
maximum-timestamp measurement among ALL measurements of that kind, each
field none exactly when the cow has no measurement of that kind at all. -/
theorem get_cow_details_unfiltered (db : DB) (idv : String) (s : CowSummary)
    (h : getCowDetails db idv = .ok s) :
    (milkAllOf db idv = [] → s.avg_milk_production = none ∧ s.latest_milk = none) ∧
    (milkAllOf db idv ≠ [] → s.avg_milk_production =
      some (((milkAllOf db idv).map Measurement.value).sum / ((milkAllOf db idv).length : ℚ))) ∧
    (∀ li, s.latest_milk = some li → ∃ m, m ∈ milkAllOf db idv ∧ li = toLatest m ∧
      ∀ m2 ∈ milkAllOf db idv, m2.timestamp ≤ m.timestamp) ∧
    (s.latest_milk = none → milkAllOf db idv = []) ∧
    (weightAllOf db idv = [] → s.avg_weight = none ∧ s.latest_weight = none) ∧
    (weightAllOf db idv ≠ [] → s.avg_weight =
      some (((weightAllOf db idv).map Measurement.value).sum / ((weightAllOf db idv).length : ℚ))) ∧
    (∀ li, s.latest_weight = some li → ∃ m, m ∈ weightAllOf db idv ∧ li = toLatest m ∧
      ∀ m2 ∈ weightAllOf db idv, m2.timestamp ≤ m.timestamp) ∧
    (s.latest_weight = none → weightAllOf db idv = []) := by
  unfold getCowDetails at h
  cases hf : db.cows.find? (fun c => c.id == idv) with
  | none => rw [hf] at h; cases h
  | some cow =>
    rw [hf] at h
    injection h with h2
    subst h2
    refine ⟨fun he => ?_, fun he => ?_, fun li hli => ?_, fun he => ?_,
      fun he => ?_, fun he => ?_, fun li hli => ?_, fun he => ?_⟩
    · exact ⟨sqlAvg_eq_none _ (by simp [he]), by simp [he, latestBy]⟩
    · show sqlAvg ((milkAllOf db idv).map Measurement.value) = _
      rw [sqlAvg_of_ne_nil _ (by simpa using he)]
      simp
    · rcases Option.map_eq_some'.1 hli with ⟨m, hm, rfl⟩
      obtain ⟨hmem, hmax⟩ := latestBy_mem_max _ _ hm
      exact ⟨m, hmem, rfl, hmax⟩
    · have := Option.map_eq_none'.1 he
      exact (latestBy_eq_none_iff _).1 this
    · exact ⟨sqlAvg_eq_none _ (by simp [he]), by simp [he, latestBy]⟩
    · show sqlAvg ((weightAllOf db idv).map Measurement.value) = _
      rw [sqlAvg_of_ne_nil _ (by simpa using he)]
      simp
    · rcases Option.map_eq_some'.1 hli with ⟨m, hm, rfl⟩
      obtain ⟨hmem, hmax⟩ := latestBy_mem_max _ _ hm
      exact ⟨m, hmem, rfl, hmax⟩
    · have := Option.map_eq_none'.1 he
      exact (latestBy_eq_none_iff _).1 this

/-- C4 witness: the amended `GET /cows/{id}` theorem applied to the concrete
database whose only milk measurement has value 0. -/
theorem get_cow_details_unfiltered_witness :
    (milkAllOf c4_db "c4cow" = [] →
      (⟨"c4cow", "N", "2020-01-01", some 0, none, some ⟨0, 5, "s"⟩, none⟩ :
        CowSummary).avg_milk_production = none ∧
      (⟨"c4cow", "N", "2020-01-01", some 0, none, some ⟨0, 5, "s"⟩, none⟩ :
        CowSummary).latest_milk = none) ∧
    (milkAllOf c4_db "c4cow" ≠ [] →
      (⟨"c4cow", "N", "2020-01-01", some 0, none, some ⟨0, 5, "s"⟩, none⟩ :
        CowSummary).avg_milk_production =
      some (((milkAllOf c4_db "c4cow").map Measurement.value).sum /
        ((milkAllOf c4_db "c4cow").length : ℚ))) ∧
    (∀ li, (⟨"c4cow", "N", "2020-01-01", some 0, none, some ⟨0, 5, "s"⟩, none⟩ :
        CowSummary).latest_milk = some li →
      ∃ m, m ∈ milkAllOf c4_db "c4cow" ∧ li = toLatest m ∧
        ∀ m2 ∈ milkAllOf c4_db "c4cow", m2.timestamp ≤ m.timestamp) ∧
    ((⟨"c4cow", "N", "2020-01-01", some 0, none, some ⟨0, 5, "s"⟩, none⟩ :
        CowSummary).latest_milk = none → milkAllOf c4_db "c4cow" = []) ∧
    (weightAllOf c4_db "c4cow" = [] →
      (⟨"c4cow", "N", "2020-01-01", some 0, none, some ⟨0, 5, "s"⟩, none⟩ :
        CowSummary).avg_weight = none ∧
      (⟨"c4cow", "N", "2020-01-01", some 0, none, some ⟨0, 5, "s"⟩, none⟩ :
        CowSummary).latest_weight = none) ∧
    (weightAllOf c4_db "c4cow" ≠ [] →
      (⟨"c4cow", "N", "2020-01-01", some 0, none, some ⟨0, 5, "s"⟩, none⟩ :
        CowSummary).avg_weight =
      some (((weightAllOf c4_db "c4cow").map Measurement.value).sum /
        ((weightAllOf c4_db "c4cow").length : ℚ))) ∧
    (∀ li, (⟨"c4cow", "N", "2020-01-01", some 0, none, some ⟨0, 5, "s"⟩, none⟩ :
        CowSummary).latest_weight = some li →
      ∃ m, m ∈ weightAllOf c4_db "c4cow" ∧ li = toLatest m ∧
        ∀ m2 ∈ weightAllOf c4_db "c4cow", m2.timestamp ≤ m.timestamp) ∧
    ((⟨"c4cow", "N", "2020-01-01", some 0, none, some ⟨0, 5, "s"⟩, none⟩ :
        CowSummary).latest_weight = none → weightAllOf c4_db "c4cow" = []) :=
  get_cow_details_unfiltered c4_db "c4cow" _
    (by simp [getCowDetails, c4_db, milkAllOf, weightAllOf, sqlAvg, latestBy, toLatest,
      maxTsStep])

/-- C5 counterexample: with an empty database — so the referenced cow and
sensor certainly do not exist — `POST /measurements` still answers 201 and
stores the measurement. -/
theorem add_measurement_unknown_refs_counterexample :
    emptyDB.cows = [] ∧ emptyDB.sensors = [] ∧
    addMeasurement emptyDB c5_req =
      (201, { emptyDB with measurements := [⟨"ghost_sensor", "ghost_cow", 0, 1⟩] }) := by
  decide

/-- C5 amended: `POST /measurements` performs no existence check on `cow_id`
or `sensor_id`: every request with a non-negative value — whether or not the
referenced cow and sensor exist — succeeds with 201 and appends the
measurement to the generic measurement table. -/
theorem add_measurement_ignores_refs (db : DB) (r : MeasurementReq) (h : 0 ≤ r.value) :
    addMeasurement db r = (201, { db with measurements := db.measurements ++
      [{ sensor_id := r.sensor_id, cow_id := r.cow_id
         timestamp := r.timestamp, value := r.value }] }) := by
  unfold addMeasurement
  rw [if_neg (not_lt.mpr h)]

/-- C5 witness: the amended insert theorem at the ghost-reference request. -/
theorem add_measurement_ignores_refs_witness :
    0 ≤ c5_req.value ∧
    addMeasurement emptyDB c5_req = (201, { emptyDB with measurements :=
      [{ sensor_id := c5_req.sensor_id, cow_id := c5_req.cow_id
         timestamp := c5_req.timestamp, value := c5_req.value }] }) :=
  ⟨by decide, add_measurement_ignores_refs emptyDB c5_req (by decide)⟩

/-- C6: a negative-valued `POST /measurements` answers 400 and leaves the
store — hence every subsequently generated report — unchanged, while any
non-negative value answers 201. -/
theorem measurement_value_validation (db : DB) (r : MeasurementReq) :
    (r.value < 0 → addMeasurement db r = (400, db) ∧
      ∀ d : ReportDate, generateReport (addMeasurement db r).2 d = generateReport db d) ∧
    (0 ≤ r.value → (addMeasurement db r).1 = 201) := by
  constructor
  · intro h
    have he : addMeasurement db r = (400, db) := by
      unfold addMeasurement; rw [if_pos h]
    exact ⟨he, fun d => by rw [he]⟩
  · intro h
    unfold addMeasurement
    rw [if_neg (not_lt.mpr h)]

/-- C6 witness: the validation theorem at a negative and at a positive
request. -/
theorem measurement_value_validation_witness :
    (c6_reqNeg.value < 0 ∧ addMeasurement emptyDB c6_reqNeg = (400, emptyDB) ∧
      generateReport (addMeasurement emptyDB c6_reqNeg).2 d0 = generateReport emptyDB d0) ∧
    (0 ≤ c6_reqPos.value ∧ (addMeasurement emptyDB c6_reqPos).1 = 201) :=
  ⟨⟨by decide, ((measurement_value_validation emptyDB c6_reqNeg).1 (by decide)).1,
    ((measurement_value_validation emptyDB c6_reqNeg).1 (by decide)).2 d0⟩,
   ⟨by decide, (measurement_value_validation emptyDB c6_reqPos).2 (by decide)⟩⟩

/-- C7: on the repository's own invalid-birthdate test input, `POST /cows`
performs no date validation at all — it answers 201 and stores the cow — and
`POST /cows/{id}` lets the validation error escape as an unhandled
exception (500 with no JSON body); neither endpoint produces the 400 that
the specification and the repository's test expect. -/
theorem cow_creation_skips_date_validation :
    validDate "not-a-date" = false ∧
    addCow emptyDB c7_req =
      (201, some "Cow added successfully",
        { emptyDB with cows := [⟨"invalid_cow", "Invalid", "not-a-date"⟩] }) ∧
    createCow emptyDB "some_id" ⟨"Invalid", "not-a-date"⟩ = (500, none, emptyDB) := by
  decide

/-- C8 counterexample: with cow id "a" already stored, `POST /cows` raises
an unhandled integrity error — a bare 500 with no JSON duplicate message —
and `POST /cows/{id}` with an invalid birthdate answers 500, not 409. -/
theorem duplicate_cow_counterexample :
    (c8_db.cows.any (fun c => c.id == "a")) = true ∧
    addCow c8_db ⟨"a", "B2", "2021-01-01"⟩ = (500, none, c8_db) ∧
    createCow c8_db "a" ⟨"B2", "not-a-date"⟩ = (500, none, c8_db) := by
  decide

/-- C8 amended: for a duplicate cow id, `POST /cows/{id}` answers 409
without modifying the store provided the birthdate is well-formed (an
invalid one hits the unhandled validation error first), while `POST /cows`
fails with an unhandled integrity error — a 500 with no JSON body, not a
duplicate-error message — and neither creates nor overwrites a cow. -/
theorem duplicate_cow_handling (db : DB) (r : CowReq) (id : String) (b : CowBody)
    (hr : db.cows.any (fun c => c.id == r.id) = true)
    (hid : db.cows.any (fun c => c.id == id) = true)
    (hb : validDate b.birthdate = true) :
    addCow db r = (500, none, db) ∧
    createCow db id b = (409, some "Cow already exists", db) := by
  constructor
  · unfold addCow; rw [if_pos hr]
  · simp [createCow, hb, hid]

/-- C8 witness: the duplicate-handling theorem at the concrete one-cow
database. -/
theorem duplicate_cow_handling_witness :
    (c8_db.cows.any (fun c => c.id == "a") = true ∧ validDate "2021-01-01" = true) ∧
    addCow c8_db ⟨"a", "B2", "2021-01-01"⟩ = (500, none, c8_db) ∧
    createCow c8_db "a" ⟨"B2", "2021-01-01"⟩ = (409, some "Cow already exists", c8_db) :=
  ⟨⟨by decide, by decide⟩,
   duplicate_cow_handling c8_db ⟨"a", "B2", "2021-01-01"⟩ "a" ⟨"B2", "2021-01-01"⟩
     (by decide) (by decide) (by decide)⟩

/-- C9: two reports over the same store differ only in the top-level date
field — the per-cow summaries and the ill-cow detection are identical for
any two reference dates, because no query filters on the date or on the
30-day window. -/
theorem report_independent_of_date (db : DB) (d1 d2 : ReportDate) :
    (generateReport db d1).cows = (generateReport db d2).cows ∧
    generateReport db d2 = { generateReport db d1 with date := fmtDate d2 } ∧
    detectIllCows (generateReport db d1) = detectIllCows (generateReport db d2) :=
  ⟨rfl, rfl, rfl⟩

/-- C10: `GET /cows` answers 404 with "No cows found" on an empty store and
otherwise 200 with the id, name and birthdate of every stored cow. -/
theorem get_cows_spec (db : DB) :
    (db.cows = [] → getCows db = ⟨404, some "No cows found", none⟩) ∧
    (db.cows ≠ [] → getCows db = ⟨200, none, some db.cows⟩) := by
  constructor
  · intro h; unfold getCows; rw [if_pos (by simp [h])]
  · intro h; unfold getCows; rw [if_neg (by simpa [List.isEmpty_iff] using h)]

/-- C10 witness: the listing theorem on an empty and on a one-cow store. -/
theorem get_cows_spec_witness :
    (emptyDB.cows = [] ∧ getCows emptyDB = ⟨404, some "No cows found", none⟩) ∧
    (c10_db.cows ≠ [] ∧ getCows c10_db = ⟨200, none, some c10_db.cows⟩) :=
  ⟨⟨rfl, (get_cows_spec emptyDB).1 rfl⟩, ⟨by decide, (get_cows_spec c10_db).2 (by decide)⟩⟩

/-- C1: a measurement accepted with 201 whose sensor has unit liters — the
repository test scenario — is stored only in the generic measurement table;
the milk and weight tables stay empty, so the report, the cow details and
the ill-cow detection never see it: its cow keeps no average and no latest
value of any kind. -/
theorem accepted_measurement_never_aggregated :
    c1_step3.1 = 201 ∧
    (⟨"milk_sensor", "test_cow", 100, 10⟩ : Measurement) ∈ c1_db3.measurements ∧
    (⟨"milk_sensor", "L"⟩ : Sensor) ∈ c1_db3.sensors ∧
    c1_db3.milk = [] ∧ c1_db3.weight = [] ∧
    (generateReport c1_db3 d0).cows =
      [{ id := "test_cow", name := "Bessie", birthdate := "2020-01-01"
         avg_milk_production := none, avg_weight := none
         latest_milk := none, latest_weight := none }] ∧
    getCowDetails c1_db3 "test_cow" =
      .ok { id := "test_cow", name := "Bessie", birthdate := "2020-01-01"
            avg_milk_production := none, avg_weight := none
            latest_milk := none, latest_weight := none } ∧
    detectIllCows (generateReport c1_db3 d0) = [] := by
  decide


end Farm
